import Mathlib

/-!
Verification of the object transform/pipeline/instancing subsystem of
BlueEngine (`crates/blue_engine_core/src/objects.rs`).

The Rust source manipulates `glam` vectors, quaternions and 4×4 matrices
over `f32`; the embedding idealises the scalar type to an arbitrary
`Field F` (instantiated with `ℚ` for executable checks and with `ℝ` when
trigonometric identities are needed).  Trigonometric functions are kept
abstract in a `Trig` record so that the definitions stay computable; real
claims instantiate them with `Real.cos` / `Real.sin`.

GPU resources (vertex buffers, shaders, textures, uniform buffers) are
created by the renderer collaborator, which lives outside the given
source.  Following the spec's collaborator contract (§6), the builders
are modelled as free constructors that record exactly the data they were
built from; the single fallible builder, `build_texture`, is a function
field of the `Renderer` record so that its success or failure can be
chosen by the environment.
-/

namespace BlueEngine

set_option maxRecDepth 16000

/-- 3-component vector, mirror of `glam::Vec3` (used as `Vector3`). -/
structure Vector3 (F : Type) where
  x : F
  y : F
  z : F
deriving DecidableEq

/-- 4-component vector, mirror of `glam::Vec4` (used as `Vector4`). -/
structure Vector4 (F : Type) where
  x : F
  y : F
  z : F
  w : F
deriving DecidableEq

/-- Quaternion, mirror of `glam::Quat` (used as `Quaternion`). -/
structure Quaternion (F : Type) where
  x : F
  y : F
  z : F
  w : F
deriving DecidableEq

namespace Vector3

variable {F : Type} [Field F]

/-- `Vec3::ZERO`. -/
def ZERO : Vector3 F := ⟨0, 0, 0⟩

/-- `Vec3::ONE`. -/
def ONE : Vector3 F := ⟨1, 1, 1⟩

/-- Component-wise subtraction, mirror of `glam` `Vec3 - Vec3`. -/
instance : Sub (Vector3 F) := ⟨fun a b => ⟨a.x - b.x, a.y - b.y, a.z - b.z⟩⟩

/-- Component-wise multiplication, mirror of `glam` `Vec3 * Vec3`. -/
instance : Mul (Vector3 F) := ⟨fun a b => ⟨a.x * b.x, a.y * b.y, a.z * b.z⟩⟩

theorem sub_eq (a b : Vector3 F) : a - b = ⟨a.x - b.x, a.y - b.y, a.z - b.z⟩ := rfl

theorem mul_eq (a b : Vector3 F) : a * b = ⟨a.x * b.x, a.y * b.y, a.z * b.z⟩ := rfl

end Vector3

/-- Abstract trigonometry: the Rust source applies `f32::sin`/`f32::cos`;
keeping them as a record of functions keeps all definitions computable.
Real-valued claims instantiate this with `Real.sin`/`Real.cos`/`Real.pi`. -/
structure Trig (F : Type) where
  cos : F → F
  sin : F → F
  pi : F

/-- The real trigonometric functions, matching the idealised semantics of
the `f32` operations used by `glam` and `f32::to_radians`.  This is the only
non-executable definition in the file: it merely packages `Real.cos`/`Real.sin`
for the real-valued claims; every definition translated from the source is an
executable `def` over the abstract `Trig` record. -/
noncomputable def realTrig : Trig ℝ := ⟨Real.cos, Real.sin, Real.pi⟩

namespace Quaternion

variable {F : Type} [Field F]

/-- `Quat::IDENTITY`. -/
def IDENTITY : Quaternion F := ⟨0, 0, 0, 1⟩

/-- Hamilton product, mirror of `glam` quaternion multiplication. -/
instance : Mul (Quaternion F) :=
  ⟨fun a b =>
    ⟨a.w * b.x + a.x * b.w + a.y * b.z - a.z * b.y,
     a.w * b.y - a.x * b.z + a.y * b.w + a.z * b.x,
     a.w * b.z + a.x * b.y - a.y * b.x + a.z * b.w,
     a.w * b.w - a.x * b.x - a.y * b.y - a.z * b.z⟩⟩

theorem mul_def (a b : Quaternion F) :
    a * b =
      ⟨a.w * b.x + a.x * b.w + a.y * b.z - a.z * b.y,
       a.w * b.y - a.x * b.z + a.y * b.w + a.z * b.x,
       a.w * b.z + a.x * b.y - a.y * b.x + a.z * b.w,
       a.w * b.w - a.x * b.x - a.y * b.y - a.z * b.z⟩ := rfl

/-- `Quat::from_rotation_x(angle)`: `(sin (angle/2), 0, 0, cos (angle/2))`. -/
def from_rotation_x (t : Trig F) (angle : F) : Quaternion F :=
  ⟨t.sin (angle / 2), 0, 0, t.cos (angle / 2)⟩

/-- `Quat::from_rotation_y(angle)`: `(0, sin (angle/2), 0, cos (angle/2))`. -/
def from_rotation_y (t : Trig F) (angle : F) : Quaternion F :=
  ⟨0, t.sin (angle / 2), 0, t.cos (angle / 2)⟩

/-- `Quat::from_rotation_z(angle)`: `(0, 0, sin (angle/2), cos (angle/2))`. -/
def from_rotation_z (t : Trig F) (angle : F) : Quaternion F :=
  ⟨0, 0, t.sin (angle / 2), t.cos (angle / 2)⟩

theorem mul_assoc (a b c : Quaternion F) : a * b * c = a * (b * c) := by
  simp only [mul_def, Quaternion.mk.injEq]
  refine ⟨by ring, by ring, by ring, by ring⟩

end Quaternion

/-- 4×4 matrix over `F`; `glam::Mat4` stores columns but its product is the
ordinary matrix product, so the mathematical matrix type is a faithful model. -/
abbrev Matrix4 (F : Type) := Matrix (Fin 4) (Fin 4) F

namespace Matrix4

variable {F : Type} [Field F]

/-- `Mat4::IDENTITY`. -/
def IDENTITY : Matrix4 F := 1

/-- `Mat4::from_scale(s)`: diagonal `(s.x, s.y, s.z, 1)`. -/
def from_scale (s : Vector3 F) : Matrix4 F :=
  Matrix.diagonal ![s.x, s.y, s.z, 1]

/-- `Mat4::from_translation(t)`: identity with `(t.x, t.y, t.z)` in the
fourth column (glam's `w_axis`). -/
def from_translation (t : Vector3 F) : Matrix4 F :=
  Matrix.of ![![1, 0, 0, t.x], ![0, 1, 0, t.y], ![0, 0, 1, t.z], ![0, 0, 0, 1]]

/-- `Mat4::from_quat(q)`: the standard rotation matrix of a quaternion,
exactly as computed by `glam` (columns `x_axis`, `y_axis`, `z_axis`). -/
def from_quat (q : Quaternion F) : Matrix4 F :=
  let x2 := q.x + q.x
  let y2 := q.y + q.y
  let z2 := q.z + q.z
  let xx := q.x * x2
  let xy := q.x * y2
  let xz := q.x * z2
  let yy := q.y * y2
  let yz := q.y * z2
  let zz := q.z * z2
  let wx := q.w * x2
  let wy := q.w * y2
  let wz := q.w * z2
  Matrix.of
    ![![1 - (yy + zz), xy - wz, xz + wy, 0],
      ![xy + wz, 1 - (xx + zz), yz - wx, 0],
      ![xz - wy, yz + wx, 1 - (xx + yy), 0],
      ![0, 0, 0, 1]]

/-- `Mat4::transpose`. -/
def transpose (m : Matrix4 F) : Matrix4 F := Matrix.transpose m

/-- `Mat4::inverse`: glam computes the cofactor (adjugate) matrix divided by
the determinant; `det⁻¹ • adjugate` is exactly that computation. -/
def inverse (m : Matrix4 F) : Matrix4 F := m.det⁻¹ • m.adjugate

end Matrix4

/-! ### Rust string replacement

`str::replace(from, to)` scans left to right and substitutes every
non-overlapping, leftmost occurrence of `from` by `to`.  Strings are
modelled as `List Char`; `goAux` is the scanner (the `Nat` argument counts
characters of a match that still have to be consumed), and `replaceAll`
also reproduces Rust's behaviour for an empty pattern (which matches at
every character boundary). -/

/-- Scanner for `str::replace`: processes the string left to right; a skip
counter consumes the remaining characters of a just-matched pattern. -/
def goAux (pat rep : List Char) : List Char → Nat → List Char
  | [], _ => []
  | _ :: rest, Nat.succ k => goAux pat rep rest k
  | c :: rest, 0 =>
    if pat.isPrefixOf (c :: rest) then rep ++ goAux pat rep rest (pat.length - 1)
    else c :: goAux pat rep rest 0

/-- Mirror of Rust `str::replace`: replace all leftmost non-overlapping
occurrences of `pat` in `s` by `rep`. -/
def replaceAll (pat rep s : List Char) : List Char :=
  if pat.isEmpty then rep ++ s.foldr (fun c acc => c :: (rep ++ acc)) []
  else goAux pat rep s 0

/-- The first marker string, `"//@CAMERA_STRUCT"`. -/
def markerCameraStruct : List Char := "//@CAMERA_STRUCT".data

/-- The second marker string, `"//@CAMERA_VERTEX"`. -/
def markerCameraVertex : List Char := "//@CAMERA_VERTEX".data

/-- Replacement text produced by the camera-struct generator when a camera
effect is set (the raw string in `ShaderBuilder::new`). -/
def cameraStructText : List Char :=
  ("struct CameraUniforms \x7b\n    camera_matrix: mat4x4<f32>,\n\x7d;\n@group(1) @binding(0)\nvar<uniform> camera_uniform: CameraUniforms;").data

/-- Replacement text produced by the camera-vertex generator when a camera
effect is set. -/
def cameraVertexSomeText : List Char :=
  ("out.position = camera_uniform.camera_matrix * model_matrix * (transform_uniform.transform_matrix * vec4<f32>(input.position, 1.0));").data

/-- Replacement text produced by the camera-vertex generator when no camera
effect is set. -/
def cameraVertexNoneText : List Char :=
  ("out.position = model_matrix * (transform_uniform.transform_matrix * vec4<f32>(input.position, 1.0));").data

/-- The `"//@CAMERA_STRUCT"` generator closure of `ShaderBuilder::new`. -/
def cameraStructGen (camera_effect : Option String) : List Char :=
  if camera_effect.isSome then cameraStructText else []

/-- The `"//@CAMERA_VERTEX"` generator closure of `ShaderBuilder::new`. -/
def cameraVertexGen (camera_effect : Option String) : List Char :=
  if camera_effect.isSome then cameraVertexSomeText else cameraVertexNoneText

/-- The fixed `configs` list installed by `ShaderBuilder::new`. -/
def shaderConfigs : List (List Char × (Option String → List Char)) :=
  [(markerCameraStruct, cameraStructGen), (markerCameraVertex, cameraVertexGen)]

/-- `ShaderBuilder`: a shader source, an optional camera-effect name and the
ordered list of (marker, generator) rules. -/
structure ShaderBuilder where
  shader : List Char
  camera_effect : Option String
  configs : List (List Char × (Option String → List Char))

/-- `ShaderBuilder::build`: for each config in order, replace all
occurrences of the marker by the generator's output. -/
def ShaderBuilder.build (sb : ShaderBuilder) : ShaderBuilder :=
  { sb with
    shader := sb.configs.foldl (fun sh cfg => replaceAll cfg.1 (cfg.2 sb.camera_effect) sh) sb.shader }

/-- `ShaderBuilder::new`: installs the two standard configs and runs one
build pass. -/
def ShaderBuilder.new (shader_source : List Char) (camera_effect : Option String) : ShaderBuilder :=
  ShaderBuilder.build
    { shader := shader_source, camera_effect := camera_effect, configs := shaderConfigs }

/-- `ShaderBuilder::set_shader`: replaces the source and re-runs the build
pass. -/
def ShaderBuilder.set_shader (sb : ShaderBuilder) (new_shader : List Char) : ShaderBuilder :=
  ShaderBuilder.build { sb with shader := new_shader }

/-! ### Resources and the renderer collaborator

The renderer and the GPU resource types live outside the given source
(spec §6 lists them as the external collaborator contract).  Each infallible
builder is modelled as a free constructor recording the data it was built
from; `build_texture`, the only fallible builder, is a function field of
`Renderer` so its outcome is environment-chosen. -/

/-- Modelled from the spec: a vertex record (its layout lives outside
`src/`; no claim inspects it). -/
structure Vertex where
  data : Nat
deriving DecidableEq

/-- Modelled from the spec: shader settings (contents outside `src/`). -/
structure ShaderSettings where
  opts : Nat := 0
deriving DecidableEq

/-- Modelled from the spec: texture source data
(`TextureData::Bytes(Vec<u8>)` and a path variant). -/
inductive TextureData where
  | bytes (data : List Nat)
  | path (p : String)
deriving DecidableEq

/-- Modelled from the spec: texture addressing mode. -/
inductive TextureMode where
  | clamp
  | repeatMode
deriving DecidableEq

/-- Modelled from the spec: a built GPU texture handle (opaque). -/
structure Textures where
  id : Nat
deriving DecidableEq

/-- Modelled from the spec: the crate's typed error
(`crate::error::Error`, defined outside `src/`). -/
structure EngineError where
  msg : String
deriving DecidableEq

/-- `renderer.build_vertex_buffer(vertices, indices)`: free constructor. -/
structure VertexBuffers where
  vertices : List Vertex
  indices : List Nat
deriving DecidableEq

/-- A named uniform-buffer part value: the source builds parts from a
`Matrix4` ("Transformation Matrix") or a `Vector4` ("Color"). -/
inductive UniformValue (F : Type) where
  | mat (m : Matrix4 F)
  | vec (v : Vector4 F)

/-- `renderer.build_uniform_buffer_part(name, value)`: free constructor. -/
structure UniformPart (F : Type) where
  name : String
  value : UniformValue F

/-- `renderer.build_uniform_buffer(parts).0`: free constructor. -/
structure UniformBuffers (F : Type) where
  parts : List (UniformPart F)

/-- `renderer.build_uniform_buffer(parts).1` (`wgpu::BindGroupLayout`):
free constructor. -/
structure BindGroupLayout (F : Type) where
  parts : List (UniformPart F)

/-- `renderer.build_shader(name, source, layout, settings)`: free
constructor. -/
structure Shaders (F : Type) where
  name : String
  source : List Char
  layout : Option (BindGroupLayout F)
  settings : ShaderSettings

/-- Per-instance GPU data: a single 4×4 model matrix (`InstanceRaw`). -/
structure InstanceRaw (F : Type) where
  model : Matrix4 F

/-- `renderer.build_instance(instance_data)` (`wgpu::Buffer`): free
constructor. -/
structure Buffer (F : Type) where
  data : List (InstanceRaw F)

/-- The renderer collaborator.  Only its fallible operation is kept as
state: `build_texture(name, data, mode) -> Result<Textures, Error>`. -/
structure Renderer where
  build_texture : String → TextureData → TextureMode → Except EngineError Textures

/-- `renderer.build_vertex_buffer`. -/
def build_vertex_buffer (vertices : List Vertex) (indices : List Nat) : VertexBuffers :=
  ⟨vertices, indices⟩

/-- `renderer.build_uniform_buffer_part`. -/
def build_uniform_buffer_part {F : Type} (name : String) (value : UniformValue F) :
    UniformPart F :=
  ⟨name, value⟩

/-- `renderer.build_uniform_buffer`. -/
def build_uniform_buffer {F : Type} (parts : List (UniformPart F)) :
    UniformBuffers F × BindGroupLayout F :=
  (⟨parts⟩, ⟨parts⟩)

/-- `renderer.build_shader`. -/
def build_shader {F : Type} (name : String) (source : List Char)
    (layout : Option (BindGroupLayout F)) (settings : ShaderSettings) : Shaders F :=
  ⟨name, source, layout, settings⟩

/-- `renderer.build_instance`. -/
def build_instance {F : Type} (instance_data : List (InstanceRaw F)) : Buffer F :=
  ⟨instance_data⟩

/-- `PipelineData<T>`: owned resource (`Data`) or a named reference to
another object's resource (`Copy`). -/
inductive PipelineData (T : Type) where
  | Data (t : T)
  | Copy (name : String)

/-- The four GPU-facing resource slots of an object. -/
structure Pipeline (F : Type) where
  vertex_buffer : PipelineData VertexBuffers
  shader : PipelineData (Shaders F)
  texture : PipelineData Textures
  uniform : PipelineData (Option (UniformBuffers F))

/-- Modelled from the spec: `DEFAULT_SHADER` (default resource constant
defined outside `src/`); a template containing both markers. -/
def DEFAULT_SHADER : List Char :=
  ("//@CAMERA_STRUCT\nstruct TransformUniforms \x7b transform_matrix: mat4x4<f32>, \x7d;\n//@CAMERA_VERTEX\n").data

/-- Modelled from the spec: `DEFAULT_TEXTURE` bytes (defined outside
`src/`). -/
def DEFAULT_TEXTURE : List Nat := [0]

/-- Modelled from the spec: `DEFAULT_COLOR` (defined outside `src/`). -/
def DEFAULT_COLOR {F : Type} [Field F] : Vector4 F := ⟨1, 1, 1, 1⟩

/-! ### Instance -/

/-- `Instance`: an independent position/rotation/scale triple. -/
structure Instance (F : Type) where
  position : Vector3 F
  rotation : Vector3 F
  scale : Vector3 F
deriving DecidableEq

/-- `Instance::default()`: zero position, zero rotation, unit scale. -/
def Instance.default {F : Type} [Field F] : Instance F :=
  { position := Vector3.ZERO, rotation := Vector3.ZERO, scale := Vector3.ONE }

/-- `Instance::build()`: model matrix
`(I * translation) * rotation(quat from Euler X,Y,Z) * (I * scale)`. -/
def Instance.build {F : Type} [Field F] (t : Trig F) (i : Instance F) : InstanceRaw F :=
  let position_matrix := Matrix4.IDENTITY * Matrix4.from_translation i.position
  let rotation_matrix :=
    Matrix4.from_quat
      (Quaternion.from_rotation_x t i.rotation.x * Quaternion.from_rotation_y t i.rotation.y *
        Quaternion.from_rotation_z t i.rotation.z)
  let scale_matrix := Matrix4.IDENTITY * Matrix4.from_scale i.scale
  { model := position_matrix * rotation_matrix * scale_matrix }

/-! ### Object -/

/-- `RotateAxis`. -/
inductive RotateAxis where
  | X
  | Y
  | Z
deriving DecidableEq

/-- `RotateAmount`. -/
inductive RotateAmount (F : Type) where
  | Radians (amount : F)
  | Degrees (amount : F)
deriving DecidableEq

/-- `ObjectSettings`. -/
structure ObjectSettings where
  camera_effect : Option String := some "main"
  shader_settings : ShaderSettings := {}

/-- The `Object` entity, field for field as in the source. -/
structure Object (F : Type) where
  name : String
  vertices : List Vertex
  indices : List Nat
  uniform_layout : BindGroupLayout F
  pipeline : Pipeline F
  instances : List (Instance F)
  instance_buffer : Buffer F
  size : Vector3 F
  position : Vector3 F
  rotation : Vector3 F
  changed : Bool
  translation_matrix : Matrix4 F
  scale_matrix : Matrix4 F
  rotation_quaternion : Quaternion F
  inverse_transformation_matrix : Matrix4 F
  color : Vector4 F
  shader_builder : ShaderBuilder
  shader_settings : ShaderSettings
  camera_effect : Option String
  uniform_buffers : List (UniformPart F)
  is_visible : Bool
  render_order : Nat

variable {F : Type} [Field F]

/-- The record constructed in the `Ok` branch of `Object::new`, given the
successfully built texture. -/
def Object.newOk (t : Trig F) (name : String) (vertices : List Vertex)
    (indices : List Nat) (settings : ObjectSettings) (texture : Textures) : Object F :=
  let vertex_buffer := build_vertex_buffer vertices indices
  let uniform :=
    build_uniform_buffer
      [build_uniform_buffer_part "Transformation Matrix" (UniformValue.mat (1 : Matrix4 F)),
       build_uniform_buffer_part "Color" (UniformValue.vec DEFAULT_COLOR)]
  let shader_source := ShaderBuilder.new DEFAULT_SHADER settings.camera_effect
  let shader :=
    build_shader name shader_source.shader (some uniform.2) settings.shader_settings
  let inst : Instance F := Instance.default
  let instance_buffer := build_instance [inst.build t]
  { name := name
    vertices := vertices
    indices := indices
    pipeline :=
      { vertex_buffer := PipelineData.Data vertex_buffer
        shader := PipelineData.Data shader
        texture := PipelineData.Data texture
        uniform := PipelineData.Data (some uniform.1) }
    instances := [inst]
    instance_buffer := instance_buffer
    uniform_layout := uniform.2
    size := Vector3.ONE
    position := Vector3.ZERO
    rotation := Vector3.ZERO
    changed := false
    translation_matrix := Matrix4.IDENTITY
    scale_matrix := Matrix4.IDENTITY
    rotation_quaternion := Quaternion.IDENTITY
    inverse_transformation_matrix := Matrix4.transpose (Matrix4.inverse Matrix4.IDENTITY)
    color := DEFAULT_COLOR
    shader_builder := shader_source
    shader_settings := settings.shader_settings
    camera_effect := settings.camera_effect
    uniform_buffers :=
      [build_uniform_buffer_part "Transformation Matrix" (UniformValue.mat (1 : Matrix4 F)),
       build_uniform_buffer_part "Color" (UniformValue.vec DEFAULT_COLOR)]
    is_visible := true
    render_order := 0 }

/-- `Object::new`: builds the resources and propagates a texture build
failure with `?`. -/
def Object.new (t : Trig F) (r : Renderer) (name : String) (vertices : List Vertex)
    (indices : List Nat) (settings : ObjectSettings) : Except EngineError (Object F) :=
  match r.build_texture "Default Texture" (TextureData.bytes DEFAULT_TEXTURE) TextureMode.clamp with
  | Except.error e => Except.error e
  | Except.ok texture => Except.ok (Object.newOk t name vertices indices settings texture)

/-- `Object::inverse_matrices()`:
`transpose (inverse (translation * from_quat rotation * scale))`. -/
def Object.inverse_matrices (o : Object F) : Object F :=
  { o with
    inverse_transformation_matrix :=
      Matrix4.transpose
        (Matrix4.inverse
          (o.translation_matrix * Matrix4.from_quat o.rotation_quaternion * o.scale_matrix)) }

/-- `Object::set_scale(scale)`: cumulative scale. -/
def Object.set_scale (o : Object F) (scale : Vector3 F) : Object F :=
  let o := { o with size := o.size * scale }
  let transformation_matrix := o.scale_matrix
  let result := transformation_matrix * Matrix4.from_scale scale
  let o := { o with scale_matrix := result }
  let o := o.inverse_matrices
  { o with changed := true }

/-- `Object::resize(size)`: resets the scale matrix, sets `size`, then
delegates to `set_scale(size)`. -/
def Object.resize (o : Object F) (size : Vector3 F) : Object F :=
  let o := { o with size := size, scale_matrix := Matrix4.IDENTITY }
  o.set_scale size

/-- `Object::set_rotation(rotation)`: absolute Euler rotation, quaternion
rebuilt as X * Y * Z. -/
def Object.set_rotation (t : Trig F) (o : Object F) (rotation : Vector3 F) : Object F :=
  let o :=
    { o with
      rotation := rotation
      rotation_quaternion :=
        Quaternion.from_rotation_x t rotation.x * Quaternion.from_rotation_y t rotation.y *
          Quaternion.from_rotation_z t rotation.z }
  let o := o.inverse_matrices
  { o with changed := true }

/-- `Object::rotate(amount, axis)`: cumulative per-axis rotation. -/
def Object.rotate (t : Trig F) (o : Object F) (amount : RotateAmount F) (axis : RotateAxis) :
    Object F :=
  let amount_radians :=
    match amount with
    | RotateAmount.Radians a => a
    | RotateAmount.Degrees a => a * (t.pi / 180)
  let step :=
    match axis with
    | RotateAxis.X =>
      ({ o with rotation := { o.rotation with x := o.rotation.x + amount_radians } },
        Quaternion.from_rotation_x t amount_radians)
    | RotateAxis.Y =>
      ({ o with rotation := { o.rotation with y := o.rotation.y + amount_radians } },
        Quaternion.from_rotation_y t amount_radians)
    | RotateAxis.Z =>
      ({ o with rotation := { o.rotation with z := o.rotation.z + amount_radians } },
        Quaternion.from_rotation_z t amount_radians)
  let o := step.1
  let o := { o with rotation_quaternion := o.rotation_quaternion * step.2 }
  let o := o.inverse_matrices
  { o with changed := true }

/-- `Object::translate(new_pos)`: subtracts `new_pos` from `position`, then
multiplies the translation matrix by a translation built from the resulting
position. -/
def Object.translate (o : Object F) (new_pos : Vector3 F) : Object F :=
  let o := { o with position := o.position - new_pos }
  let o :=
    { o with
      translation_matrix := o.translation_matrix * Matrix4.from_translation o.position }
  let o := o.inverse_matrices
  { o with changed := true }

/-- `Object::set_position(new_pos)`: sets `position`, resets the translation
matrix to identity, then delegates to `translate(new_pos)`. -/
def Object.set_position (o : Object F) (new_pos : Vector3 F) : Object F :=
  let o := { o with position := new_pos, translation_matrix := Matrix4.IDENTITY }
  o.translate new_pos

/-- `Object::set_color(r, g, b, a)`. -/
def Object.set_color (o : Object F) (red green blue alpha : F) : Object F :=
  { o with color := ⟨red, green, blue, alpha⟩, changed := true }

/-- `Object::set_render_order(render_order)`. -/
def Object.set_render_order (o : Object F) (render_order : Nat) : Object F :=
  { o with render_order := render_order }

/-- `Object::set_texture_raw(texture)`. -/
def Object.set_texture_raw (o : Object F) (texture : Textures) : Object F :=
  { o with pipeline := { o.pipeline with texture := PipelineData.Data texture }, changed := true }

/-- `Object::set_texture(name, data, mode, renderer)`: builds the texture
via the renderer, propagating failure, then delegates to
`set_texture_raw`. -/
def Object.set_texture (o : Object F) (name : String) (texture_data : TextureData)
    (texture_mode : TextureMode) (r : Renderer) : Except EngineError (Object F) :=
  match r.build_texture name texture_data texture_mode with
  | Except.error e => Except.error e
  | Except.ok texture => Except.ok (o.set_texture_raw texture)

/-- `Object::flag_as_changed(is_changed)`. -/
def Object.flag_as_changed (o : Object F) (is_changed : Bool) : Object F :=
  { o with changed := is_changed }

/-- `Object::set_visibility(is_visible)`: note, the source does not touch
`changed` here. -/
def Object.set_visibility (o : Object F) (is_visible : Bool) : Object F :=
  { o with is_visible := is_visible }

/-- `Object::add_instance(instance)`. -/
def Object.add_instance (o : Object F) (inst : Instance F) : Object F :=
  { o with instances := o.instances ++ [inst], changed := true }

/-! ### The update pass -/

/-- `Object::update_vertex_buffer`. -/
def Object.update_vertex_buffer (o : Object F) : Object F :=
  let updated_buffer := build_vertex_buffer o.vertices o.indices
  { o with pipeline := { o.pipeline with vertex_buffer := PipelineData.Data updated_buffer } }

/-- `Object::update_vertex_buffer_and_return`: builds the buffer twice,
installs one copy and returns the other. -/
def Object.update_vertex_buffer_and_return (o : Object F) : Object F × VertexBuffers :=
  let updated_buffer := build_vertex_buffer o.vertices o.indices
  let updated_buffer_2 := build_vertex_buffer o.vertices o.indices
  ({ o with pipeline := { o.pipeline with vertex_buffer := PipelineData.Data updated_buffer } },
    updated_buffer_2)

/-- `Object::update_shader`. -/
def Object.update_shader (o : Object F) : Object F :=
  let updated_shader :=
    build_shader o.name o.shader_builder.shader (some o.uniform_layout) o.shader_settings
  { o with pipeline := { o.pipeline with shader := PipelineData.Data updated_shader } }

/-- `Object::update_shader_and_return`. -/
def Object.update_shader_and_return (o : Object F) : Object F × Shaders F :=
  let updated_shader :=
    build_shader o.name o.shader_builder.shader (some o.uniform_layout) o.shader_settings
  let updated_shader2 :=
    build_shader o.name o.shader_builder.shader (some o.uniform_layout) o.shader_settings
  ({ o with pipeline := { o.pipeline with shader := PipelineData.Data updated_shader } },
    updated_shader2)

/-- `Object::update_uniform_buffer_inner`: refreshes the two named parts in
`uniform_buffers`, then builds the uniform buffer from them. -/
def Object.update_uniform_buffer_inner (o : Object F) :
    Object F × (UniformBuffers F × BindGroupLayout F) :=
  let parts :=
    (o.uniform_buffers.set 0
        (build_uniform_buffer_part "Transformation Matrix"
          (UniformValue.mat
            (o.translation_matrix * Matrix4.from_quat o.rotation_quaternion * o.scale_matrix)))).set
      1 (build_uniform_buffer_part "Color" (UniformValue.vec o.color))
  let o := { o with uniform_buffers := parts }
  (o, build_uniform_buffer parts)

/-- `Object::update_uniform_buffer`. -/
def Object.update_uniform_buffer (o : Object F) : Object F :=
  let inner := o.update_uniform_buffer_inner
  { inner.1 with
    pipeline := { inner.1.pipeline with uniform := PipelineData.Data (some inner.2.1) }
    uniform_layout := inner.2.2 }

/-- `Object::update_uniform_buffer_and_return`: the built buffer is cloned;
one copy is installed, the clone returned. -/
def Object.update_uniform_buffer_and_return (o : Object F) : Object F × UniformBuffers F :=
  let inner := o.update_uniform_buffer_inner
  ({ inner.1 with
      pipeline := { inner.1.pipeline with uniform := PipelineData.Data (some inner.2.1) }
      uniform_layout := inner.2.2 },
    inner.2.1)

/-- `Object::update_instance_buffer`. -/
def Object.update_instance_buffer (t : Trig F) (o : Object F) : Object F :=
  let instance_data := o.instances.map (Instance.build t)
  { o with instance_buffer := build_instance instance_data }

/-- `Object::update_instance_buffer_and_return`. -/
def Object.update_instance_buffer_and_return (t : Trig F) (o : Object F) :
    Object F × Buffer F :=
  let instance_data := o.instances.map (Instance.build t)
  ({ o with instance_buffer := build_instance instance_data }, build_instance instance_data)

/-- `Object::update`: vertex buffer, uniform buffer, shader, instance
buffer, then clear the dirty flag. -/
def Object.update (t : Trig F) (o : Object F) : Object F :=
  let o := o.update_vertex_buffer
  let o := o.update_uniform_buffer
  let o := o.update_shader
  let o := o.update_instance_buffer t
  { o with changed := false }

/-- `Object::update_and_return`: vertex buffer, uniform buffer and shader
(each returned as well), then clear the dirty flag.  The instance buffer is
not rebuilt here. -/
def Object.update_and_return (o : Object F) :
    Object F × (VertexBuffers × UniformBuffers F × Shaders F) :=
  let vb := o.update_vertex_buffer_and_return
  let ub := vb.1.update_uniform_buffer_and_return
  let sh := ub.1.update_shader_and_return
  ({ sh.1 with changed := false }, (vb.2, ub.2, sh.2))

/-- `Object::reference_vertices`. -/
def Object.reference_vertices (o : Object F) (object_id : String) : Object F :=
  { o with pipeline := { o.pipeline with vertex_buffer := PipelineData.Copy object_id } }

/-- `Object::reference_shader`. -/
def Object.reference_shader (o : Object F) (object_id : String) : Object F :=
  { o with pipeline := { o.pipeline with shader := PipelineData.Copy object_id } }

/-- `Object::reference_texture`. -/
def Object.reference_texture (o : Object F) (object_id : String) : Object F :=
  { o with pipeline := { o.pipeline with texture := PipelineData.Copy object_id } }

/-- `Object::reference_uniform_buffer`. -/
def Object.reference_uniform_buffer (o : Object F) (object_id : String) : Object F :=
  { o with pipeline := { o.pipeline with uniform := PipelineData.Copy object_id } }

/-! ### Concrete fixtures for executable checks -/

/-- A computable `Trig ℚ` model (its values are irrelevant to the facts
checked with it). -/
def trigQ : Trig ℚ := ⟨fun _ => 1, fun _ => 0, 0⟩

/-- A concrete texture handle. -/
def texture0 : Textures := ⟨0⟩

/-- A renderer whose texture build always succeeds. -/
def rendererOk : Renderer := ⟨fun _ _ _ => Except.ok texture0⟩

/-- A concrete object: the result of a successful `Object::new`. -/
def obj0 : Object ℚ := Object.newOk trigQ "obj" [] [] {} texture0

/-! ### Helper lemmas about the matrix constructors -/

theorem Vector3.sub_self (p : Vector3 F) : p - p = Vector3.ZERO := by
  simp [Vector3.sub_eq, Vector3.ZERO]

theorem Vector3.mulAssoc (u a b : Vector3 F) : u * a * b = u * (a * b) := by
  simp [Vector3.mul_eq, mul_assoc]

theorem Matrix4.from_translation_zero :
    Matrix4.from_translation (Vector3.ZERO : Vector3 F) = 1 := by
  unfold Matrix4.from_translation Vector3.ZERO
  ext i j
  fin_cases i <;> fin_cases j <;>
    simp [Matrix.one_apply, Matrix.vecHead, Matrix.vecTail]

theorem Matrix4.from_scale_mul (a b : Vector3 F) :
    Matrix4.from_scale a * Matrix4.from_scale b = Matrix4.from_scale (a * b) := by
  unfold Matrix4.from_scale
  rw [Matrix.diagonal_mul_diagonal]
  have h : (fun i => (![a.x, a.y, a.z, 1] : Fin 4 → F) i * (![b.x, b.y, b.z, 1] : Fin 4 → F) i) =
      ![(a * b).x, (a * b).y, (a * b).z, 1] := by
    funext i
    fin_cases i <;> simp [Vector3.mul_eq]
  rw [h]

theorem Matrix4.from_scale_one : Matrix4.from_scale (Vector3.ONE : Vector3 F) = 1 := by
  unfold Matrix4.from_scale Vector3.ONE
  have h : ![(1 : F), 1, 1, 1] = fun _ => (1 : F) := by
    funext i
    fin_cases i <;> rfl
  rw [h, Matrix.diagonal_one]

/-! ### Claim theorems -/

/-- C1: the claim says `set_position(p)` leaves `position == p`; the code
instead ends with `position == 0` for every `p` (and the translation matrix
equal to the identity), because `translate` subtracts `p` from the freshly
assigned position.  This theorem evaluates the code: the final position is
always the zero vector, and at the failing input `p = (1,2,3)` it differs
from `p`. -/
theorem c1_set_position_zeroes_position :
    (∀ (o : Object ℚ) (p : Vector3 ℚ),
      (o.set_position p).position = Vector3.ZERO ∧
        (o.set_position p).translation_matrix = 1) ∧
    (obj0.set_position ⟨1, 2, 3⟩).position ≠ ⟨1, 2, 3⟩ := by
  have hgen : ∀ (o : Object ℚ) (p : Vector3 ℚ),
      (o.set_position p).position = Vector3.ZERO ∧
        (o.set_position p).translation_matrix = 1 := by
    intro o p
    constructor
    · show p - p = Vector3.ZERO
      exact Vector3.sub_self p
    · show Matrix4.IDENTITY * Matrix4.from_translation (p - p) = 1
      rw [Vector3.sub_self, Matrix4.from_translation_zero]
      simp [Matrix4.IDENTITY]
  refine ⟨hgen, ?_⟩
  rw [(hgen obj0 ⟨1, 2, 3⟩).1]
  simp [Vector3.ZERO, Vector3.mk.injEq]

/-- C2 (amended): `changed` is set by every transform/resource mutator
(`set_scale`, `resize`, `set_rotation`, `rotate`, `translate`,
`set_position`, `set_color`, `set_texture_raw`, `add_instance`), but
`set_visibility` leaves `changed` untouched, and besides `update` /
`update_and_return` the operation `flag_as_changed(false)` also clears
it. -/
theorem c2_changed_flag_discipline :
    ∀ (t : Trig ℚ) (o : Object ℚ) (s p : Vector3 ℚ) (amount : RotateAmount ℚ)
      (axis : RotateAxis) (red green blue alpha : ℚ) (tex : Textures)
      (i : Instance ℚ) (b : Bool),
      (o.set_scale s).changed = true ∧
      (o.resize s).changed = true ∧
      (Object.set_rotation t o s).changed = true ∧
      (Object.rotate t o amount axis).changed = true ∧
      (o.translate p).changed = true ∧
      (o.set_position p).changed = true ∧
      (o.set_color red green blue alpha).changed = true ∧
      (o.set_texture_raw tex).changed = true ∧
      (o.add_instance i).changed = true ∧
      (o.set_visibility b).changed = o.changed ∧
      (o.flag_as_changed b).changed = b ∧
      (Object.update t o).changed = false ∧
      (o.update_and_return).1.changed = false := by
  intro t o s p amount axis red green blue alpha tex i b
  refine ⟨rfl, rfl, rfl, ?_, rfl, rfl, rfl, rfl, rfl, rfl, rfl, rfl, rfl⟩
  cases axis <;> rfl

/-- C2 counterexample: on a clean object `set_visibility` leaves `changed`
false (the claim says any visibility mutator sets it), and
`flag_as_changed(false)` clears the flag of a dirty object even though it
is not the update pass (the claim says update is the only clearing
operation). -/
theorem c2_counterexample :
    (obj0.set_visibility true).changed = false ∧
    ((obj0.set_color 1 1 1 1).flag_as_changed false).changed = false :=
  ⟨rfl, rfl⟩

/-- C3 (amended): `resize(s)` yields the same `scale_matrix` as a freshly
constructed object on which `set_scale(s)` is applied once (prior
cumulative scale does not carry over in the matrix), but the `size` field
becomes `s * s` component-wise (not `s`, because `resize` first assigns
`size := s` and then `set_scale` multiplies it by `s` again); and the
`inverse_transformation_matrix` agrees with the fresh object's only when
the object's translation matrix and rotation quaternion are the
identity. -/
theorem c3_resize_vs_fresh_scale :
    ∀ (o : Object ℚ) (t : Trig ℚ) (name : String) (vertices : List Vertex)
      (indices : List Nat) (settings : ObjectSettings) (tex : Textures) (s : Vector3 ℚ),
      (o.resize s).scale_matrix =
        ((Object.newOk t name vertices indices settings tex).set_scale s).scale_matrix ∧
      (o.resize s).size = s * s ∧
      (o.translation_matrix = 1 → o.rotation_quaternion = Quaternion.IDENTITY →
        (o.resize s).inverse_transformation_matrix =
          ((Object.newOk t name vertices indices settings tex).set_scale
              s).inverse_transformation_matrix) := by
  intro o t name vertices indices settings tex s
  refine ⟨rfl, rfl, fun h1 h2 => ?_⟩
  show Matrix4.transpose
      (Matrix4.inverse
        (o.translation_matrix * Matrix4.from_quat o.rotation_quaternion *
          (Matrix4.IDENTITY * Matrix4.from_scale s))) = _
  rw [h1, h2]
  rfl

/-- C3 witness: the inverse-matrix agreement, applied to the concrete clean
object `obj0` (identity translation and rotation). -/
theorem c3_witness :
    (obj0.resize ⟨2, 2, 2⟩).inverse_transformation_matrix =
      ((Object.newOk trigQ "n" [] [] {} texture0).set_scale
          ⟨2, 2, 2⟩).inverse_transformation_matrix :=
  (c3_resize_vs_fresh_scale obj0 trigQ "n" [] [] {} texture0 ⟨2, 2, 2⟩).2.2 rfl rfl

/-- C3 counterexample: with `s = (2,2,2)`, `resize` leaves `size = (4,4,4)`
while a fresh object with `set_scale(s)` has `size = (2,2,2)` — the claim's
"size ends up equal to s" is false. -/
theorem c3_counterexample :
    (obj0.resize ⟨2, 2, 2⟩).size ≠
      ((Object.newOk trigQ "n" [] [] {} texture0).set_scale ⟨2, 2, 2⟩).size := by
  show ((⟨2, 2, 2⟩ : Vector3 ℚ) * ⟨2, 2, 2⟩) ≠ Vector3.ONE * ⟨2, 2, 2⟩
  simp [Vector3.mul_eq, Vector3.ONE, Vector3.mk.injEq]

/-- C5: `set_scale` is cumulative: scaling by `a` then by `b` produces the
scale matrix of a single `set_scale(a*b)` from the same starting state, and
the `size` field ends at the starting size multiplied component-wise by
`a*b`. -/
theorem c5_set_scale_cumulative :
    ∀ (o : Object ℚ) (a b : Vector3 ℚ),
      ((o.set_scale a).set_scale b).scale_matrix = (o.set_scale (a * b)).scale_matrix ∧
      ((o.set_scale a).set_scale b).size = o.size * (a * b) := by
  intro o a b
  constructor
  · show o.scale_matrix * Matrix4.from_scale a * Matrix4.from_scale b =
      o.scale_matrix * Matrix4.from_scale (a * b)
    rw [mul_assoc, Matrix4.from_scale_mul]
  · show o.size * a * b = o.size * (a * b)
    exact Vector3.mulAssoc o.size a b

/-- C9: `Object::new` succeeds exactly when the renderer's texture build
succeeds, and propagates the typed error unchanged otherwise: the result is
precisely the texture-build result mapped through the `Ok`-branch object
construction, for every renderer behaviour. -/
theorem c9_new_propagates_texture_failure :
    ∀ (t : Trig ℚ) (r : Renderer) (name : String) (vertices : List Vertex)
      (indices : List Nat) (settings : ObjectSettings),
      Object.new t r name vertices indices settings =
        (r.build_texture "Default Texture" (TextureData.bytes DEFAULT_TEXTURE)
            TextureMode.clamp).map (Object.newOk t name vertices indices settings) := by
  intro t r name vertices indices settings
  unfold Object.new
  cases r.build_texture "Default Texture" (TextureData.bytes DEFAULT_TEXTURE)
      TextureMode.clamp <;> rfl

/-- C10: every object successfully returned by `Object::new` starts clean
and at default placement: `changed = false`, zero position and rotation,
unit size, identity translation and scale matrices, identity rotation
quaternion, visible, render order 0, and exactly one default instance. -/
theorem c10_new_object_defaults :
    ∀ (t : Trig ℚ) (r : Renderer) (name : String) (vertices : List Vertex)
      (indices : List Nat) (settings : ObjectSettings) (o : Object ℚ),
      Object.new t r name vertices indices settings = Except.ok o →
      o.changed = false ∧ o.position = Vector3.ZERO ∧ o.rotation = Vector3.ZERO ∧
        o.size = Vector3.ONE ∧ o.translation_matrix = 1 ∧ o.scale_matrix = 1 ∧
        o.rotation_quaternion = Quaternion.IDENTITY ∧ o.is_visible = true ∧
        o.render_order = 0 ∧ o.instances = [Instance.default] := by
  intro t r name vertices indices settings o h
  unfold Object.new at h
  cases hb : r.build_texture "Default Texture" (TextureData.bytes DEFAULT_TEXTURE)
      TextureMode.clamp with
  | error e => rw [hb] at h; exact absurd h (by simp)
  | ok tex =>
    rw [hb] at h
    injection h with h
    subst h
    exact ⟨rfl, rfl, rfl, rfl, rfl, rfl, rfl, rfl, rfl, rfl⟩

/-- `q * IDENTITY = q` for the glam quaternion product. -/
theorem Quaternion.mul_IDENTITY (q : Quaternion F) : q * Quaternion.IDENTITY = q := by
  simp [Quaternion.mul_def, Quaternion.IDENTITY]

/-- The rotation matrix of the identity quaternion is the identity. -/
theorem Matrix4.from_quat_IDENTITY :
    Matrix4.from_quat (Quaternion.IDENTITY : Quaternion F) = 1 := by
  unfold Matrix4.from_quat Quaternion.IDENTITY
  ext i j
  fin_cases i <;> fin_cases j <;>
    simp [Matrix.one_apply, Matrix.vecHead, Matrix.vecTail]

/-- `Quat::from_rotation_x` at angle 0 is the identity quaternion (over the
real trigonometric functions). -/
theorem Quaternion.from_rotation_x_zero :
    Quaternion.from_rotation_x realTrig 0 = Quaternion.IDENTITY := by
  simp [Quaternion.from_rotation_x, Quaternion.IDENTITY, realTrig]

/-- `Quat::from_rotation_y` at angle 0 is the identity quaternion. -/
theorem Quaternion.from_rotation_y_zero :
    Quaternion.from_rotation_y realTrig 0 = Quaternion.IDENTITY := by
  simp [Quaternion.from_rotation_y, Quaternion.IDENTITY, realTrig]

/-- `Quat::from_rotation_z` at angle 0 is the identity quaternion. -/
theorem Quaternion.from_rotation_z_zero :
    Quaternion.from_rotation_z realTrig 0 = Quaternion.IDENTITY := by
  simp [Quaternion.from_rotation_z, Quaternion.IDENTITY, realTrig]

/-- Angle addition for `Quat::from_rotation_x` over the real trigonometric
functions. -/
theorem Quaternion.from_rotation_x_add (θ1 θ2 : ℝ) :
    Quaternion.from_rotation_x realTrig θ1 * Quaternion.from_rotation_x realTrig θ2 =
      Quaternion.from_rotation_x realTrig (θ1 + θ2) := by
  simp only [Quaternion.from_rotation_x, Quaternion.mul_def, realTrig, Quaternion.mk.injEq]
  refine ⟨?_, by ring, by ring, ?_⟩
  · rw [add_div, Real.sin_add]
    ring
  · rw [add_div, Real.cos_add]
    ring

/-- Angle addition for `Quat::from_rotation_y`. -/
theorem Quaternion.from_rotation_y_add (θ1 θ2 : ℝ) :
    Quaternion.from_rotation_y realTrig θ1 * Quaternion.from_rotation_y realTrig θ2 =
      Quaternion.from_rotation_y realTrig (θ1 + θ2) := by
  simp only [Quaternion.from_rotation_y, Quaternion.mul_def, realTrig, Quaternion.mk.injEq]
  refine ⟨by ring, ?_, by ring, ?_⟩
  · rw [add_div, Real.sin_add]
    ring
  · rw [add_div, Real.cos_add]
    ring

/-- Angle addition for `Quat::from_rotation_z`. -/
theorem Quaternion.from_rotation_z_add (θ1 θ2 : ℝ) :
    Quaternion.from_rotation_z realTrig θ1 * Quaternion.from_rotation_z realTrig θ2 =
      Quaternion.from_rotation_z realTrig (θ1 + θ2) := by
  simp only [Quaternion.from_rotation_z, Quaternion.mul_def, realTrig, Quaternion.mk.injEq]
  refine ⟨by ring, by ring, ?_, ?_⟩
  · rw [add_div, Real.sin_add]
    ring
  · rw [add_div, Real.cos_add]
    ring

/-- The per-axis incremental quaternion that `Object::rotate` multiplies
onto the stored quaternion. -/
def axisQuaternion (t : Trig F) (angle : F) : RotateAxis → Quaternion F
  | RotateAxis.X => Quaternion.from_rotation_x t angle
  | RotateAxis.Y => Quaternion.from_rotation_y t angle
  | RotateAxis.Z => Quaternion.from_rotation_z t angle

/-- C6: `rotate` is cumulative per axis: two radian rotations about one
axis give the same quaternion and the same stored Euler component as one
rotation by the sum; a degree rotation behaves exactly like the radian
rotation by `d * π / 180`; and the quaternion is composed as
existing × new. -/
theorem c6_rotate_cumulative :
    (∀ (o : Object ℝ) (θ1 θ2 : ℝ) (axis : RotateAxis),
      ((Object.rotate realTrig o (RotateAmount.Radians θ1) axis).rotate realTrig
            (RotateAmount.Radians θ2) axis).rotation_quaternion =
          (Object.rotate realTrig o (RotateAmount.Radians (θ1 + θ2)) axis).rotation_quaternion ∧
        ((Object.rotate realTrig o (RotateAmount.Radians θ1) axis).rotate realTrig
            (RotateAmount.Radians θ2) axis).rotation =
          (Object.rotate realTrig o (RotateAmount.Radians (θ1 + θ2)) axis).rotation) ∧
    (∀ (o : Object ℝ) (d : ℝ) (axis : RotateAxis),
      Object.rotate realTrig o (RotateAmount.Degrees d) axis =
        Object.rotate realTrig o (RotateAmount.Radians (d * (Real.pi / 180))) axis) ∧
    (∀ (o : Object ℝ) (θ : ℝ) (axis : RotateAxis),
      (Object.rotate realTrig o (RotateAmount.Radians θ) axis).rotation_quaternion =
        o.rotation_quaternion * axisQuaternion realTrig θ axis) := by
  refine ⟨fun o θ1 θ2 axis => ?_, fun o d axis => rfl, fun o θ axis => ?_⟩
  · cases axis with
    | X =>
      refine ⟨?_, ?_⟩
      · show o.rotation_quaternion * Quaternion.from_rotation_x realTrig θ1 *
            Quaternion.from_rotation_x realTrig θ2 =
            o.rotation_quaternion * Quaternion.from_rotation_x realTrig (θ1 + θ2)
        rw [Quaternion.mul_assoc, Quaternion.from_rotation_x_add]
      · show Vector3.mk (o.rotation.x + θ1 + θ2) o.rotation.y o.rotation.z =
            Vector3.mk (o.rotation.x + (θ1 + θ2)) o.rotation.y o.rotation.z
        rw [add_assoc]
    | Y =>
      refine ⟨?_, ?_⟩
      · show o.rotation_quaternion * Quaternion.from_rotation_y realTrig θ1 *
            Quaternion.from_rotation_y realTrig θ2 =
            o.rotation_quaternion * Quaternion.from_rotation_y realTrig (θ1 + θ2)
        rw [Quaternion.mul_assoc, Quaternion.from_rotation_y_add]
      · show Vector3.mk o.rotation.x (o.rotation.y + θ1 + θ2) o.rotation.z =
            Vector3.mk o.rotation.x (o.rotation.y + (θ1 + θ2)) o.rotation.z
        rw [add_assoc]
    | Z =>
      refine ⟨?_, ?_⟩
      · show o.rotation_quaternion * Quaternion.from_rotation_z realTrig θ1 *
            Quaternion.from_rotation_z realTrig θ2 =
            o.rotation_quaternion * Quaternion.from_rotation_z realTrig (θ1 + θ2)
        rw [Quaternion.mul_assoc, Quaternion.from_rotation_z_add]
      · show Vector3.mk o.rotation.x o.rotation.y (o.rotation.z + θ1 + θ2) =
            Vector3.mk o.rotation.x o.rotation.y (o.rotation.z + (θ1 + θ2))
        rw [add_assoc]
  · cases axis <;> rfl

/-- C4 (amended): starting from the same state, `update_and_return`
regenerates the vertex buffer, uniform buffer and shader exactly as
`update` does (same resulting pipeline, same uniform layout and parts) and
clears the dirty flag, returning duplicates equal to the installed copies —
but unlike `update` it does **not** regenerate the instance buffer, which
it leaves untouched. -/
theorem c4_update_and_return_equivalence :
    ∀ (t : Trig ℚ) (o : Object ℚ),
      (o.update_and_return).1.pipeline = (Object.update t o).pipeline ∧
      (o.update_and_return).1.uniform_layout = (Object.update t o).uniform_layout ∧
      (o.update_and_return).1.uniform_buffers = (Object.update t o).uniform_buffers ∧
      (o.update_and_return).1.changed = false ∧
      (Object.update t o).changed = false ∧
      (o.update_and_return).2.1 = build_vertex_buffer o.vertices o.indices ∧
      (o.update_and_return).1.pipeline.vertex_buffer =
        PipelineData.Data (o.update_and_return).2.1 ∧
      (o.update_and_return).1.pipeline.uniform =
        PipelineData.Data (some (o.update_and_return).2.2.1) ∧
      (o.update_and_return).1.pipeline.shader =
        PipelineData.Data (o.update_and_return).2.2.2 ∧
      (o.update_and_return).1.instance_buffer = o.instance_buffer ∧
      (Object.update t o).instance_buffer =
        build_instance (o.instances.map (Instance.build t)) := by
  intro t o
  exact ⟨rfl, rfl, rfl, rfl, rfl, rfl, rfl, rfl, rfl, rfl, rfl⟩

/-- A dirty object whose instance list grew since its instance buffer was
last built. -/
def obj4 : Object ℚ := obj0.add_instance Instance.default

/-- C4 counterexample: on an object with two instances but a one-instance
buffer, `update` rebuilds the instance buffer (two entries) while
`update_and_return` leaves the stale one-entry buffer — so it does not
perform the same regeneration as `update`, contrary to the claim. -/
theorem c4_counterexample :
    (obj4.update_and_return).1.instance_buffer ≠ (Object.update trigQ obj4).instance_buffer := by
  intro h
  have hlen := congrArg (fun b : Buffer ℚ => b.data.length) h
  simp only [] at hlen
  have h1 : (obj4.update_and_return).1.instance_buffer.data.length = 1 := rfl
  have h2 : (Object.update trigQ obj4).instance_buffer.data.length = 2 := rfl
  rw [h1, h2] at hlen
  exact absurd hlen (by norm_num)

/-- C8: `Instance::build` is the pure model-matrix construction
`translation(position) × rotation(quat from Euler X, Y, Z in that order) ×
scale(scale)`; in particular an instance at position `p` with zero rotation
and unit scale builds the pure translation matrix by `p`. -/
theorem c8_instance_build_model_matrix :
    (∀ i : Instance ℝ,
      (i.build realTrig).model =
        Matrix4.from_translation i.position *
          Matrix4.from_quat
            (Quaternion.from_rotation_x realTrig i.rotation.x *
              Quaternion.from_rotation_y realTrig i.rotation.y *
              Quaternion.from_rotation_z realTrig i.rotation.z) *
          Matrix4.from_scale i.scale) ∧
    (∀ p : Vector3 ℝ,
      (Instance.build realTrig ⟨p, Vector3.ZERO, Vector3.ONE⟩).model =
        Matrix4.from_translation p) := by
  constructor
  · intro i
    show Matrix4.IDENTITY * Matrix4.from_translation i.position *
        Matrix4.from_quat
          (Quaternion.from_rotation_x realTrig i.rotation.x *
            Quaternion.from_rotation_y realTrig i.rotation.y *
            Quaternion.from_rotation_z realTrig i.rotation.z) *
        (Matrix4.IDENTITY * Matrix4.from_scale i.scale) = _
    simp [Matrix4.IDENTITY]
  · intro p
    show Matrix4.IDENTITY * Matrix4.from_translation p *
        Matrix4.from_quat
          (Quaternion.from_rotation_x realTrig 0 * Quaternion.from_rotation_y realTrig 0 *
            Quaternion.from_rotation_z realTrig 0) *
        (Matrix4.IDENTITY * Matrix4.from_scale Vector3.ONE) = _
    rw [Quaternion.from_rotation_x_zero, Quaternion.from_rotation_y_zero,
      Quaternion.from_rotation_z_zero, Quaternion.mul_IDENTITY, Quaternion.mul_IDENTITY,
      Matrix4.from_quat_IDENTITY, Matrix4.from_scale_one]
    simp [Matrix4.IDENTITY]

/-- C10 witness: the defaults, evaluated on a concrete successful
construction. -/
theorem c10_witness :
    (Object.newOk trigQ "x" ([] : List Vertex) ([] : List Nat) {} texture0).changed = false ∧
      (Object.newOk trigQ "x" ([] : List Vertex) ([] : List Nat) {} texture0).position =
        Vector3.ZERO ∧
      (Object.newOk trigQ "x" ([] : List Vertex) ([] : List Nat) {} texture0).rotation =
        Vector3.ZERO ∧
      (Object.newOk trigQ "x" ([] : List Vertex) ([] : List Nat) {} texture0).size =
        Vector3.ONE ∧
      (Object.newOk trigQ "x" ([] : List Vertex) ([] : List Nat) {} texture0).translation_matrix =
        1 ∧
      (Object.newOk trigQ "x" ([] : List Vertex) ([] : List Nat) {} texture0).scale_matrix = 1 ∧
      (Object.newOk trigQ "x" ([] : List Vertex) ([] : List Nat) {} texture0).rotation_quaternion =
        Quaternion.IDENTITY ∧
      (Object.newOk trigQ "x" ([] : List Vertex) ([] : List Nat) {} texture0).is_visible = true ∧
      (Object.newOk trigQ "x" ([] : List Vertex) ([] : List Nat) {} texture0).render_order = 0 ∧
      (Object.newOk trigQ "x" ([] : List Vertex) ([] : List Nat) {} texture0).instances =
        [Instance.default] :=
  c10_new_object_defaults trigQ rendererOk "x" [] [] {}
    (Object.newOk trigQ "x" [] [] {} texture0) rfl

/-! ### Theory of `replaceAll`

The claim about `ShaderBuilder::build` needs facts of the form "after
replacing `pat` by `rep`, the result contains no occurrence of `q`".
They are proved by following `goAux`'s scan: every suffix of the output is
a suffix of `rep` glued onto the output for a residual input
(`suffix_goAux`), and a partial match of `q` that survives the scan must
either fit inside `rep` or trace contiguous original characters
(`core_scan`). -/

theorem goAux_skip (pat rep : List Char) :
    ∀ (s : List Char) (k : Nat), goAux pat rep s k = goAux pat rep (s.drop k) 0 := by
  intro s
  induction s with
  | nil => intro k; cases k <;> rfl
  | cons c rest ih =>
    intro k
    cases k with
    | zero => rfl
    | succ k2 =>
      show goAux pat rep rest k2 = _
      rw [ih k2]
      rfl

theorem goAux_match (pat rep : List Char) (hp : pat ≠ []) (s : List Char) (h : pat <+: s) :
    goAux pat rep s 0 = rep ++ goAux pat rep (s.drop pat.length) 0 := by
  cases s with
  | nil =>
    exact absurd (List.prefix_nil.mp h) hp
  | cons c rest =>
    show (if pat.isPrefixOf (c :: rest) then rep ++ goAux pat rep rest (pat.length - 1)
      else c :: goAux pat rep rest 0) = _
    rw [if_pos (List.isPrefixOf_iff_prefix.mpr h), goAux_skip]
    obtain ⟨m, hm⟩ := Nat.exists_eq_succ_of_ne_zero
      (fun h0 => hp (List.length_eq_zero.mp h0))
    rw [hm, Nat.succ_sub_one, List.drop_succ_cons]

theorem goAux_nomatch (pat rep : List Char) (c : Char) (rest : List Char)
    (h : ¬ pat <+: (c :: rest)) :
    goAux pat rep (c :: rest) 0 = c :: goAux pat rep rest 0 := by
  show (if pat.isPrefixOf (c :: rest) then rep ++ goAux pat rep rest (pat.length - 1)
    else c :: goAux pat rep rest 0) = _
  rw [if_neg (fun hb => h (List.isPrefixOf_iff_prefix.mp hb))]

theorem suffix_append_cases {u A B : List Char} (h : u <:+ A ++ B) :
    u <:+ B ∨ ∃ w, w <:+ A ∧ u = w ++ B := by
  induction A generalizing u with
  | nil => exact Or.inl (by simpa using h)
  | cons a A2 ih =>
    rw [List.cons_append, List.suffix_cons_iff] at h
    cases h with
    | inl h => exact Or.inr ⟨a :: A2, List.suffix_rfl, by rw [h, List.cons_append]⟩
    | inr h =>
      cases ih h with
      | inl h2 => exact Or.inl h2
      | inr h2 =>
        obtain ⟨w, hw, rfl⟩ := h2
        exact Or.inr ⟨w, hw.trans (List.suffix_cons a A2), rfl⟩

theorem prefix_append_of_le {u A B : List Char} (h : u <+: A ++ B)
    (hl : u.length ≤ A.length) : u <+: A := by
  have h1 : u = (A ++ B).take u.length := List.prefix_iff_eq_take.mp h
  rw [List.take_append_of_le_length hl] at h1
  rw [h1]
  exact List.take_prefix _ _

theorem prefix_append_split {u A B : List Char} (h : u <+: A ++ B)
    (hl : A.length < u.length) : A <+: u ∧ u.drop A.length <+: B := by
  have h1 : u = (A ++ B).take u.length := List.prefix_iff_eq_take.mp h
  rw [List.take_append_eq_append_take, List.take_of_length_le (le_of_lt hl)] at h1
  constructor
  · exact ⟨B.take (u.length - A.length), h1.symm⟩
  · rw [h1, List.drop_left]
    exact List.take_prefix _ _

theorem suffix_goAux (pat rep : List Char) (hp : pat ≠ []) :
    ∀ (n : Nat) (s u : List Char), s.length ≤ n → u <:+ goAux pat rep s 0 →
      ∃ w s2, w <:+ rep ∧ s2 <:+ s ∧ u = w ++ goAux pat rep s2 0 := by
  intro n
  induction n with
  | zero =>
    intro s u hn hu
    have hs : s = [] := List.length_eq_zero.mp (Nat.le_zero.mp hn)
    subst hs
    have hu2 : u = [] := List.suffix_nil.mp hu
    exact ⟨[], [], List.nil_suffix, List.suffix_rfl, by rw [hu2]; rfl⟩
  | succ n ih =>
    intro s u hn hu
    cases s with
    | nil =>
      have hu2 : u = [] := List.suffix_nil.mp hu
      exact ⟨[], [], List.nil_suffix, List.suffix_rfl, by rw [hu2]; rfl⟩
    | cons c rest =>
      by_cases hm : pat <+: (c :: rest)
      · rw [goAux_match pat rep hp _ hm] at hu
        cases suffix_append_cases hu with
        | inl h2 =>
          have hlen : ((c :: rest).drop pat.length).length ≤ n := by
            rw [List.length_drop]
            have h1 : 0 < pat.length := List.length_pos.mpr hp
            have h2 : (c :: rest).length ≤ n + 1 := hn
            omega
          obtain ⟨w, s2, hw, hs2, hu2⟩ := ih _ _ hlen h2
          exact ⟨w, s2, hw, hs2.trans (List.drop_suffix _ _), hu2⟩
        | inr h2 =>
          obtain ⟨w, hw, rfl⟩ := h2
          exact ⟨w, (c :: rest).drop pat.length, hw, List.drop_suffix _ _, rfl⟩
      · rw [goAux_nomatch pat rep c rest hm] at hu
        rw [List.suffix_cons_iff] at hu
        cases hu with
        | inl h2 =>
          refine ⟨[], c :: rest, List.nil_suffix, List.suffix_rfl, ?_⟩
          rw [h2, List.nil_append, goAux_nomatch pat rep c rest hm]
        | inr h2 =>
          obtain ⟨w, s2, hw, hs2, hu2⟩ := ih rest u (Nat.le_of_succ_le_succ hn) h2
          exact ⟨w, s2, hw, hs2.trans (List.suffix_cons c rest), hu2⟩

theorem core_scan (pat rep : List Char) (hp : pat ≠ []) {q : List Char}
    (hlen : q.length ≤ rep.length)
    (hc2 : ∀ v, v ≠ [] → v <+: rep → ¬ v <:+ q) :
    ∀ (n : Nat) (s q2 : List Char), s.length ≤ n → q2 ≠ [] → q2 <:+ q →
      q2 <+: goAux pat rep s 0 → ¬ q2 <+: s → False := by
  intro n
  induction n with
  | zero =>
    intro s q2 hn hne _ hpre _
    have hs : s = [] := List.length_eq_zero.mp (Nat.le_zero.mp hn)
    subst hs
    exact hne (List.prefix_nil.mp hpre)
  | succ n ih =>
    intro s q2 hn hne hsuf hpre hns
    cases s with
    | nil => exact hne (List.prefix_nil.mp hpre)
    | cons c rest =>
      by_cases hm : pat <+: (c :: rest)
      · rw [goAux_match pat rep hp _ hm] at hpre
        have hq2 : q2 <+: rep :=
          prefix_append_of_le hpre (le_trans (List.IsSuffix.length_le hsuf) hlen)
        exact hc2 q2 hne hq2 hsuf
      · rw [goAux_nomatch pat rep c rest hm] at hpre
        cases q2 with
        | nil => exact hne rfl
        | cons d q2t =>
          rw [List.cons_prefix_cons] at hpre
          obtain ⟨rfl, hpre2⟩ := hpre
          by_cases hq2t : q2t = []
          · subst hq2t
            exact hns ⟨rest, rfl⟩
          · have hsuf2 : q2t <:+ q := (List.suffix_cons d q2t).trans hsuf
            have hns2 : ¬ q2t <+: rest := fun hq =>
              hns (List.cons_prefix_cons.mpr ⟨rfl, hq⟩)
            exact ih rest q2t (Nat.le_of_succ_le_succ hn) hq2t hsuf2 hpre2 hns2

theorem goAux_no_pat (pat rep : List Char) (hp : pat ≠ [])
    (hlen : pat.length ≤ rep.length) (hrep : ¬ pat <:+: rep)
    (hc1 : ∀ w, w ≠ [] → w <:+ rep → ¬ w <+: pat)
    (hc2 : ∀ v, v ≠ [] → v <+: rep → ¬ v <:+ pat) :
    ∀ s, ¬ pat <:+: goAux pat rep s 0 := by
  intro s h
  obtain ⟨u, hpre, hsuf⟩ := List.infix_iff_prefix_suffix.mp h
  obtain ⟨w, s2, hw, _, rfl⟩ := suffix_goAux pat rep hp s.length s u (le_refl _) hsuf
  by_cases hcmp : pat.length ≤ w.length
  · exact hrep ((prefix_append_of_le hpre hcmp).isInfix.trans hw.isInfix)
  · push_neg at hcmp
    by_cases hwnil : w = []
    · subst hwnil
      rw [List.nil_append] at hpre
      cases hs2 : s2 with
      | nil =>
        rw [hs2] at hpre
        exact hp (List.prefix_nil.mp hpre)
      | cons c rest =>
        subst hs2
        by_cases hm : pat <+: (c :: rest)
        · rw [goAux_match pat rep hp _ hm] at hpre
          exact hrep (prefix_append_of_le hpre hlen).isInfix
        · exact core_scan pat rep hp hlen hc2 (c :: rest).length (c :: rest) pat
            (le_refl _) hp List.suffix_rfl hpre hm
    · have hsplit := prefix_append_split hpre hcmp
      exact hc1 w hwnil hw hsplit.1

theorem goAux_preserves (pat rep : List Char) (hp : pat ≠ []) {q : List Char}
    (hq : q ≠ []) (hlen : q.length ≤ rep.length) (hqrep : ¬ q <:+: rep)
    (hc1 : ∀ w, w ≠ [] → w <:+ rep → ¬ w <+: q)
    (hc2 : ∀ v, v ≠ [] → v <+: rep → ¬ v <:+ q) :
    ∀ s, ¬ q <:+: s → ¬ q <:+: goAux pat rep s 0 := by
  intro s hs h
  obtain ⟨u, hpre, hsuf⟩ := List.infix_iff_prefix_suffix.mp h
  obtain ⟨w, s2, hw, hs2, rfl⟩ := suffix_goAux pat rep hp s.length s u (le_refl _) hsuf
  by_cases hcmp : q.length ≤ w.length
  · exact hqrep ((prefix_append_of_le hpre hcmp).isInfix.trans hw.isInfix)
  · push_neg at hcmp
    by_cases hwnil : w = []
    · subst hwnil
      rw [List.nil_append] at hpre
      have hns : ¬ q <+: s2 := fun h2 => hs (h2.isInfix.trans hs2.isInfix)
      exact core_scan pat rep hp hlen hc2 s2.length s2 q (le_refl _) hq
        List.suffix_rfl hpre hns
    · have hsplit := prefix_append_split hpre hcmp
      exact hc1 w hwnil hw hsplit.1

/-- If `p` starts with a character that does not occur in `r`, no nonempty
suffix of `r` is a prefix of `p`. -/
theorem head_cond1 (x : Char) (p r : List Char) (hhead : p.head? = some x) (hx : x ∉ r) :
    ∀ w, w ≠ [] → w <:+ r → ¬ w <+: p := by
  intro w hw hsuf hpre
  cases w with
  | nil => exact hw rfl
  | cons d w2 =>
    cases p with
    | nil => exact absurd hpre (by simp)
    | cons ph p2 =>
      rw [List.cons_prefix_cons] at hpre
      have hd : d = ph := hpre.1
      have hx2 : ph = x := by simpa using hhead
      apply hx
      rw [← hx2, ← hd]
      exact hsuf.subset (List.mem_cons_self d w2)

/-- If `r` starts with a character that does not occur in `q`, no nonempty
prefix of `r` is a suffix of `q`. -/
theorem head_cond2 (x : Char) (q r : List Char) (hhead : r.head? = some x) (hx : x ∉ q) :
    ∀ v, v ≠ [] → v <+: r → ¬ v <:+ q := by
  intro v hv hpre hsuf
  cases v with
  | nil => exact hv rfl
  | cons d v2 =>
    cases r with
    | nil => exact absurd hpre (by simp)
    | cons rh r2 =>
      rw [List.cons_prefix_cons] at hpre
      have hd : d = rh := hpre.1
      have hx2 : rh = x := by simpa using hhead
      apply hx
      rw [← hx2, ← hd]
      exact hsuf.subset (List.mem_cons_self d v2)

theorem replaceAll_eq_goAux (pat rep s : List Char) (hp : pat ≠ []) :
    replaceAll pat rep s = goAux pat rep s 0 := by
  cases pat with
  | nil => exact absurd rfl hp
  | cons c p2 => rfl

/-- The replacement step for `"//@CAMERA_VERTEX"` leaves no occurrence of
that marker, whatever the camera setting and input. -/
theorem no_vertex_marker (cam : Option String) (x : List Char) :
    ¬ markerCameraVertex <:+: replaceAll markerCameraVertex (cameraVertexGen cam) x := by
  have hp : markerCameraVertex ≠ [] := by decide
  rw [replaceAll_eq_goAux _ _ _ hp]
  cases cam with
  | none =>
    exact goAux_no_pat markerCameraVertex cameraVertexNoneText hp (by decide) (by decide)
      (head_cond1 '/' markerCameraVertex cameraVertexNoneText (by decide) (by decide))
      (head_cond2 'o' markerCameraVertex cameraVertexNoneText (by decide) (by decide)) x
  | some c =>
    exact goAux_no_pat markerCameraVertex cameraVertexSomeText hp (by decide) (by decide)
      (head_cond1 '/' markerCameraVertex cameraVertexSomeText (by decide) (by decide))
      (head_cond2 'o' markerCameraVertex cameraVertexSomeText (by decide) (by decide)) x

/-- With a camera effect set, the two replacement steps leave no occurrence
of `"//@CAMERA_STRUCT"`: the first step removes them all (its replacement
cannot recreate one), and the second step cannot recreate one. -/
theorem no_struct_marker_some (c : String) (s : List Char) :
    ¬ markerCameraStruct <:+:
      replaceAll markerCameraVertex (cameraVertexGen (some c))
        (replaceAll markerCameraStruct (cameraStructGen (some c)) s) := by
  have hp1 : markerCameraStruct ≠ [] := by decide
  have hp2 : markerCameraVertex ≠ [] := by decide
  rw [replaceAll_eq_goAux _ _ _ hp2, replaceAll_eq_goAux _ _ _ hp1]
  exact goAux_preserves markerCameraVertex cameraVertexSomeText hp2 hp1 (by decide)
    (by decide)
    (head_cond1 '/' markerCameraStruct cameraVertexSomeText (by decide) (by decide))
    (head_cond2 'o' markerCameraStruct cameraVertexSomeText (by decide) (by decide))
    (goAux markerCameraStruct cameraStructText s 0)
    (goAux_no_pat markerCameraStruct cameraStructText hp1 (by decide) (by decide)
      (head_cond1 '/' markerCameraStruct cameraStructText (by decide) (by decide))
      (head_cond2 's' markerCameraStruct cameraStructText (by decide) (by decide)) s)

/-- C7 (amended): `ShaderBuilder::build` applies the two (marker, generator)
rules in declaration order, replacing all occurrences (and both
construction and `set_shader` trigger exactly this pass); the built shader
never contains `"//@CAMERA_VERTEX"`, and when a camera effect is set it
contains no declared marker at all.  (With no camera effect the empty
replacement for `"//@CAMERA_STRUCT"` can splice a new marker occurrence out
of the surrounding text, so full marker-freeness fails — see the
counterexample.) -/
theorem c7_shader_build_markers :
    (∀ (s s2 : List Char) (cam : Option String),
      (ShaderBuilder.new s cam).shader =
        replaceAll markerCameraVertex (cameraVertexGen cam)
          (replaceAll markerCameraStruct (cameraStructGen cam) s) ∧
      ((ShaderBuilder.new s cam).set_shader s2).shader =
        replaceAll markerCameraVertex (cameraVertexGen cam)
          (replaceAll markerCameraStruct (cameraStructGen cam) s2)) ∧
    (∀ (s s2 : List Char) (cam : Option String),
      ¬ markerCameraVertex <:+: (ShaderBuilder.new s cam).shader ∧
      ¬ markerCameraVertex <:+: ((ShaderBuilder.new s cam).set_shader s2).shader) ∧
    (∀ (s s2 : List Char) (c : String),
      ¬ markerCameraStruct <:+: (ShaderBuilder.new s (some c)).shader ∧
      ¬ markerCameraStruct <:+: ((ShaderBuilder.new s (some c)).set_shader s2).shader) := by
  refine ⟨fun s s2 cam => ⟨rfl, rfl⟩, fun s s2 cam => ⟨?_, ?_⟩, fun s s2 c => ⟨?_, ?_⟩⟩
  · exact no_vertex_marker cam (replaceAll markerCameraStruct (cameraStructGen cam) s)
  · exact no_vertex_marker cam (replaceAll markerCameraStruct (cameraStructGen cam) s2)
  · exact no_struct_marker_some c s
  · exact no_struct_marker_some c s2

/-- C7 counterexample: with no camera effect, building from the source
`"//@CAMERA//@CAMERA_STRUCT_STRUCT"` deletes the inner marker and thereby
splices together a fresh `"//@CAMERA_STRUCT"`, so the built shader does
contain a declared marker. -/
theorem c7_counterexample :
    markerCameraStruct <:+:
      (ShaderBuilder.new ("//@CAMERA//@CAMERA_STRUCT_STRUCT").data none).shader := by
  decide

end BlueEngine
